import Mathlib

/-!
Shallow embedding of `checks/open_api_check.py`, a linter that validates an
OpenAPI JSON document for documentation completeness (non-empty `description`
fields on the info node, every operation, parameter and response).

Modelling conventions:
* JSON values (the result of Python's `json.load`) are the inductive `Json`.
  JSON objects become association lists in insertion order (a parsed JSON
  object has pairwise distinct keys); numbers are `Int` (no check in the
  program ever inspects a numeric value).
* Python exceptions become `Except PyErr`: `KeyError` from dict subscription,
  `TypeError` from subscripting / iterating values of the wrong type, and
  `AttributeError` from calling `.strip()` on a non-string.
* `print` output is collected as a `List String` in the success value of each
  function; a function that raises discards its output, which is harmless
  because no theorem below inspects output on an error path.
* File I/O and `json.load` are outside the program under analysis:
  `check_openapi_json` receives the parse outcome as `Except String Json`
  (the error case carries the parser's error text `str(e)`), and
  `display_report` receives the `tput`-lookup capability as a function
  `String → String`.
* Python's `str.strip()` is modelled by `pyStrip`, a structurally recursive
  whitespace trim on the string's character list.
-/

/-- A JSON value as produced by Python's `json.load`. -/
inductive Json where
  | null : Json
  | bool : Bool → Json
  | num : Int → Json
  | str : String → Json
  | arr : List Json → Json
  | obj : List (String × Json) → Json

/-- Python exceptions that the checker can raise. -/
inductive PyErr where
  | keyError : String → PyErr
  | typeError : PyErr
  | attributeError : PyErr
deriving DecidableEq, Repr

/-- First-match lookup in an association list (a parsed JSON object has
pairwise distinct keys, so first-match agrees with Python dict lookup). -/
def lookupKvs (kvs : List (String × Json)) (k : String) : Option Json :=
  match kvs with
  | [] => none
  | (k', v) :: rest => if k' = k then some v else lookupKvs rest k

/-- Substring test on character lists: Python's `needle in haystack` for
strings. -/
def listContainsSub (needle : List Char) : List Char → Bool
  | [] => needle.isEmpty
  | c :: t => needle.isPrefixOf (c :: t) || listContainsSub needle t

/-- Python's `k in v` for a string key `k`: key membership for dicts,
substring test for strings, element equality for lists (a string compares
equal only to an equal string), `TypeError` for non-iterable values. -/
def pyContains (v : Json) (k : String) : Except PyErr Bool :=
  match v with
  | .obj kvs => .ok (kvs.any fun kv => kv.1 == k)
  | .str s => .ok (listContainsSub k.toList s.toList)
  | .arr xs => .ok (xs.any fun j => match j with | .str s => s == k | _ => false)
  | _ => .error .typeError

/-- Python's `v[k]` for a string key `k`: dict lookup raising `KeyError` when
the key is absent; every other value raises `TypeError` when subscripted with
a string. -/
def getItem (v : Json) (k : String) : Except PyErr Json :=
  match v with
  | .obj kvs =>
    match lookupKvs kvs k with
    | some x => .ok x
    | none => .error (.keyError k)
  | _ => .error .typeError

/-- Drop leading whitespace characters from a character list. -/
def dropLeadingWs : List Char → List Char
  | [] => []
  | c :: t => if c.isWhitespace then dropLeadingWs t else c :: t

/-- Python's `str.strip()`: remove leading and trailing whitespace. -/
def pyStrip (s : String) : String :=
  String.mk ((dropLeadingWs ((dropLeadingWs s.data).reverse)).reverse)

/-- `empty_attribute(node, selector)`: `node[selector].strip() == ""`.
Subscription follows `getItem`; `.strip()` on a non-string value raises
`AttributeError`. -/
def empty_attribute (node : Json) (selector : String) : Except PyErr Bool :=
  match getItem node selector with
  | .error e => .error e
  | .ok (.str s) => .ok (pyStrip s == "")
  | .ok _ => .error .attributeError

/-- `check_info_node(obj, verbose)`: failure count (0 or 1) for the `info`
node's description, together with the lines printed. `verbose` is the
argparse value (`None` or `True`); Python tests it with `is not None`. -/
def check_info_node (obj : Json) (verbose : Option Bool) :
    Except PyErr (Nat × List String) :=
  let pre := if verbose.isSome then ["    checking info node"] else []
  match obj with
  | .null => .ok (1, pre ++ ["Empty object has been deserialized"])
  | _ =>
    match pyContains obj "info" with
    | .error e => .error e
    | .ok hasInfo =>
      if !hasInfo then .ok (1, pre ++ ["Info node can't be found"])
      else
        match getItem obj "info" with
        | .error e => .error e
        | .ok info =>
          match pyContains info "description" with
          | .error e => .error e
          | .ok hasDesc =>
            if !hasDesc then
              .ok (1, pre ++ ["No description provided for the whole file"])
            else
              match empty_attribute info "description" with
              | .error e => .error e
              | .ok blank =>
                if blank then
                  .ok (1, pre ++ ["Empty description provided for the whole file"])
                else .ok (0, pre)

/-- `check_description_for_method(path, method, m)`: 0 or 1 failures for the
operation object's own description. -/
def check_description_for_method (path method : String) (m : Json) :
    Except PyErr (Nat × List String) :=
  match pyContains m "description" with
  | .error e => .error e
  | .ok has =>
    if !has then
      .ok (1, ["            No description found for endpoint `" ++ path ++
               "` and method `" ++ method ++ "`"])
    else
      match empty_attribute m "description" with
      | .error e => .error e
      | .ok blank =>
        if blank then
          .ok (1, ["            Empty description found for endpoint `" ++ path ++
                   "` and method `" ++ method ++ "`"])
        else .ok (0, [])

/-- Body of the `for parameter in parameters` loop of
`check_description_for_method_parameters`: both violation branches build the
diagnostic with `parameter["name"]` (raising `KeyError` when `name` is absent
and `TypeError` when its value is not a string, since it is concatenated into
the message). -/
def checkOneParameter (path method : String) (parameter : Json) :
    Except PyErr (Nat × List String) :=
  match pyContains parameter "description" with
  | .error e => .error e
  | .ok has =>
    if !has then
      match getItem parameter "name" with
      | .error e => .error e
      | .ok (.str name) =>
        .ok (1, ["            No description found for endpoint `" ++ path ++
                 "` method `" ++ method ++ "` and parameter `" ++ name ++ "`"])
      | .ok _ => .error .typeError
    else
      match empty_attribute parameter "description" with
      | .error e => .error e
      | .ok blank =>
        if blank then
          match getItem parameter "name" with
          | .error e => .error e
          | .ok (.str name) =>
            .ok (1, ["            Empty description found for endpoint `" ++ path ++
                     "` method `" ++ method ++ "` and parameter `" ++ name ++ "`"])
          | .ok _ => .error .typeError
        else .ok (0, [])

/-- The `for parameter in parameters` loop: failures accumulate over all
elements; an exception aborts the loop. -/
def loopParams (path method : String) : List Json → Except PyErr (Nat × List String)
  | [] => .ok (0, [])
  | p :: rest =>
    match checkOneParameter path method p with
    | .error e => .error e
    | .ok (n, out) =>
      match loopParams path method rest with
      | .error e => .error e
      | .ok (n', out') => .ok (n + n', out ++ out')

/-- `check_description_for_method_parameters(path, method, m)`. When
`m["parameters"]` is not a list, Python iterates it if it can: an empty string
or empty dict yields zero iterations (0 failures); a non-empty string or dict
yields string items, and the loop body then subscripts that string item and
raises `TypeError` at the first item; non-iterable values raise `TypeError`
at the `for` statement. Both failing shapes are modelled as an immediate
`TypeError`. -/
def check_description_for_method_parameters (path method : String) (m : Json) :
    Except PyErr (Nat × List String) :=
  match pyContains m "parameters" with
  | .error e => .error e
  | .ok has =>
    if has then
      match getItem m "parameters" with
      | .error e => .error e
      | .ok (.arr ps) => loopParams path method ps
      | .ok (.str s) => if s.isEmpty then .ok (0, []) else .error .typeError
      | .ok (.obj kvs) => if kvs.isEmpty then .ok (0, []) else .error .typeError
      | .ok _ => .error .typeError
    else .ok (0, [])

/-- Body of the `for response in responses` loop of
`check_description_for_method_responses`, for one key/value pair of the
`responses` dict (`r = responses[response]`). The diagnostic uses the string
key itself, so no further lookup can fail. -/
def checkOneResponse (path method response : String) (r : Json) :
    Except PyErr (Nat × List String) :=
  match pyContains r "description" with
  | .error e => .error e
  | .ok has =>
    if !has then
      .ok (1, ["            No description found for endpoint `" ++ path ++
               "` method `" ++ method ++ "` and response `" ++ response ++ "`"])
    else
      match empty_attribute r "description" with
      | .error e => .error e
      | .ok blank =>
        if blank then
          .ok (1, ["            Empty description found for endpoint `" ++ path ++
                   "` method `" ++ method ++ "` and response `" ++ response ++ "`"])
        else .ok (0, [])

/-- The `for response in responses` loop over the dict's key/value pairs. -/
def loopResponses (path method : String) :
    List (String × Json) → Except PyErr (Nat × List String)
  | [] => .ok (0, [])
  | (k, r) :: rest =>
    match checkOneResponse path method k r with
    | .error e => .error e
    | .ok (n, out) =>
      match loopResponses path method rest with
      | .error e => .error e
      | .ok (n', out') => .ok (n + n', out ++ out')

/-- `check_description_for_method_responses(path, method, m)`. When
`m["responses"]` is not a dict: an empty string or list yields zero
iterations; iterating a non-empty string or list always reaches a `TypeError`
(the loop subscripts `responses` with each item and then tests membership on
the result), modelled as an immediate `TypeError`; non-iterable values raise
`TypeError` at the `for` statement. -/
def check_description_for_method_responses (path method : String) (m : Json) :
    Except PyErr (Nat × List String) :=
  match pyContains m "responses" with
  | .error e => .error e
  | .ok has =>
    if has then
      match getItem m "responses" with
      | .error e => .error e
      | .ok (.obj kvs) => loopResponses path method kvs
      | .ok (.str s) => if s.isEmpty then .ok (0, []) else .error .typeError
      | .ok (.arr xs) => if xs.isEmpty then .ok (0, []) else .error .typeError
      | .ok _ => .error .typeError
    else .ok (0, [])

/-- `check_method(path, method, methods, verbose)`: `m = methods[method]`,
then the three method-level validators, failures summed. -/
def check_method (path method : String) (methods : Json) (verbose : Option Bool) :
    Except PyErr (Nat × List String) :=
  let pre := if verbose.isSome then ["        checking method " ++ method] else []
  match getItem methods method with
  | .error e => .error e
  | .ok m =>
    match check_description_for_method path method m with
    | .error e => .error e
    | .ok (n1, o1) =>
      match check_description_for_method_parameters path method m with
      | .error e => .error e
      | .ok (n2, o2) =>
        match check_description_for_method_responses path method m with
        | .error e => .error e
        | .ok (n3, o3) => .ok (n1 + n2 + n3, pre ++ o1 ++ o2 ++ o3)

/-- The `for method in methods` loop of `check_path`, over the dict's keys. -/
def loopMethods (path : String) (methods : Json) (verbose : Option Bool) :
    List String → Except PyErr (Nat × List String)
  | [] => .ok (0, [])
  | k :: rest =>
    match check_method path k methods verbose with
    | .error e => .error e
    | .ok (n, out) =>
      match loopMethods path methods verbose rest with
      | .error e => .error e
      | .ok (n', out') => .ok (n + n', out ++ out')

/-- `check_path(path, methods, verbose)`: iterate the methods mapping's keys.
When `methods` is not a dict: empty string/list iterables yield zero
iterations; non-empty ones always reach a `TypeError` inside the loop
(`methods` gets subscripted with each item, and an item that survives
subscription fails a later membership test or subscription), modelled as an
immediate `TypeError`; non-iterables raise `TypeError` at the `for`. -/
def check_path (path : String) (methods : Json) (verbose : Option Bool) :
    Except PyErr (Nat × List String) :=
  let pre := if verbose.isSome then ["    checking path " ++ path] else []
  match methods with
  | .obj kvs =>
    match loopMethods path (.obj kvs) verbose (kvs.map Prod.fst) with
    | .error e => .error e
    | .ok (n, out) => .ok (n, pre ++ out)
  | .str s => if s.isEmpty then .ok (0, pre) else .error .typeError
  | .arr xs => if xs.isEmpty then .ok (0, pre) else .error .typeError
  | _ => .error .typeError

/-- The `for path in paths` loop of `check_all_paths`, over the dict's keys:
`methods = paths[path]` then `check_path`. -/
def loopPaths (paths : Json) (verbose : Option Bool) :
    List String → Except PyErr (Nat × List String)
  | [] => .ok (0, [])
  | k :: rest =>
    match getItem paths k with
    | .error e => .error e
    | .ok methods =>
      match check_path k methods verbose with
      | .error e => .error e
      | .ok (n, out) =>
        match loopPaths paths verbose rest with
        | .error e => .error e
        | .ok (n', out') => .ok (n + n', out ++ out')

/-- `check_all_paths(obj, verbose)`: `paths = obj["paths"]` (an uncaught
`KeyError`/`TypeError` when absent or unsubscriptable), then iterate all
paths. Non-dict `paths` values follow the same iteration model as
`check_path`. -/
def check_all_paths (obj : Json) (verbose : Option Bool) :
    Except PyErr (Nat × List String) :=
  let pre := if verbose.isSome then ["    checking all paths found in OpenAPI file"] else []
  match getItem obj "paths" with
  | .error e => .error e
  | .ok paths =>
    match paths with
    | .obj kvs =>
      match loopPaths (.obj kvs) verbose (kvs.map Prod.fst) with
      | .error e => .error e
      | .ok (n, out) => .ok (n, pre ++ out)
    | .str s => if s.isEmpty then .ok (0, pre) else .error .typeError
    | .arr xs => if xs.isEmpty then .ok (0, pre) else .error .typeError
    | _ => .error .typeError

/-- `filename = directory + "openapi.json"`: plain string concatenation, no
path separator inserted. -/
def openapi_filename (directory : String) : String :=
  directory ++ "openapi.json"

/-- `check_openapi_json(verbose, directory)`. Opening the file is external
I/O; `parsed` is the outcome of `json.load` on its content (`.error e`
carries the parser's error text). Only the parse error (`ValueError`) is
caught; exceptions from the two checks propagate. On success returns
`((passes, failures), printed lines)`. -/
def check_openapi_json (verbose : Option Bool) (directory : String)
    (parsed : Except String Json) : Except PyErr ((Nat × Nat) × List String) :=
  let filename := openapi_filename directory
  match parsed with
  | .error e =>
    .ok ((0, 1), [filename ++ " has invalid JSON format", e])
  | .ok obj =>
    let pre := if verbose.isSome then [filename ++ " has valid JSON format"] else []
    match check_info_node obj verbose with
    | .error e => .error e
    | .ok (f1, o1) =>
      match check_all_paths obj verbose with
      | .error e => .error e
      | .ok (f2, o2) =>
        .ok ((if f1 + f2 = 0 then 1 else 0, f1 + f2), pre ++ o1 ++ o2)

/-- Python truthiness of an argparse `store_true` value (default `None`):
`not nocolors` is true for `None` and `False`. -/
def pyFalsy : Option Bool → Bool
  | none => true
  | some b => !b

/-- One of the four color variables of `display_report`: looked up through
the external `tput` capability `cc` when colors are enabled, the empty string
otherwise. -/
def colorCode (nocolors : Option Bool) (cc : String → String) (op : String) : String :=
  if pyFalsy nocolors then cc op else ""

/-- The `[WARN]` banner line printed when no file was found. -/
def warnBanner (nocolors : Option Bool) (cc : String → String) : String :=
  colorCode nocolors cc "setab 5" ++ "[WARN]" ++ colorCode nocolors cc "sgr0" ++
    ": no JSON files with OpenAPI detected"

/-- The `[OK]` banner line printed when all files passed. -/
def okBanner (nocolors : Option Bool) (cc : String → String) : String :=
  colorCode nocolors cc "setab 2" ++ "[OK]" ++ colorCode nocolors cc "sgr0" ++
    ": OpenAPI file seems to have proper format and content"

/-- The `[FAIL]` banner line printed when a failure was recorded. -/
def failBanner (nocolors : Option Bool) (cc : String → String) : String :=
  colorCode nocolors cc "setab 1" ++ "[FAIL]" ++ colorCode nocolors cc "sgr0" ++
    ": file with invalid format and/or content detected"

/-- `display_report(passes, failures, nocolors)`: one banner chosen by the
counters, then the two literal summary lines. `cc` is the external
`read_control_code` capability (`tput`). -/
def display_report (passes failures : Nat) (nocolors : Option Bool)
    (cc : String → String) : List String :=
  let banner :=
    if failures = 0 then
      if passes = 0 then warnBanner nocolors cc
      else okBanner nocolors cc
    else failBanner nocolors cc
  [banner, toString passes ++ " passes", toString failures ++ " failures"]

/-- Failure count carried by a validator result, 0 when it raised (only used
below where a success hypothesis is in scope). -/
def okCount (r : Except PyErr (Nat × List String)) : Nat :=
  match r with
  | .ok (n, _) => n
  | .error _ => 0

/-- Modelled from the spec (4.3): the summed failure count of the three
method-level validators on one (path, method, operation) triple. -/
def spec_method_total (path method : String) (m : Json) : Nat :=
  okCount (check_description_for_method path method m) +
  okCount (check_description_for_method_parameters path method m) +
  okCount (check_description_for_method_responses path method m)

/-- Modelled from the spec (4.4): for one path, the sum over every method key
of its methods mapping of the three validators' failures, the operation being
that key's value. A non-mapping methods value contributes nothing. -/
def spec_methods_total (path : String) (methods : Json) : Nat :=
  match methods with
  | .obj kvs =>
    ((kvs.map Prod.fst).map fun k =>
      match lookupKvs kvs k with
      | some m => spec_method_total path k m
      | none => 0).sum
  | _ => 0

/-- Modelled from the spec (4.4): the grand total over every path key of
`document.paths` and every method key within that path's methods mapping. -/
def spec_grand_total (pathsKvs : List (String × Json)) : Nat :=
  ((pathsKvs.map Prod.fst).map fun p =>
    match lookupKvs pathsKvs p with
    | some methods => spec_methods_total p methods
    | none => 0).sum

/-- The info-check violation condition of the spec (4.2): document null,
`info` missing, `info.description` missing, or `info.description` blank. -/
def info_violation : Json → Bool
  | .null => true
  | .obj kvs =>
    match lookupKvs kvs "info" with
    | none => true
    | some (.obj ikvs) =>
      match lookupKvs ikvs "description" with
      | none => true
      | some (.str s) => pyStrip s == ""
      | some _ => false
    | some _ => false
  | _ => false

/-- The data-model shape (spec 3) the info check relies on: the root is null
or a mapping; its `info` value, when present, is a mapping; that mapping's
`description` value, when present, is a string. -/
def infoWf : Json → Bool
  | .null => true
  | .obj kvs =>
    match lookupKvs kvs "info" with
    | none => true
    | some (.obj ikvs) =>
      match lookupKvs ikvs "description" with
      | none => true
      | some (.str _) => true
      | some _ => false
    | some _ => false
  | _ => false

/-- A parameter object violating the description policy: `description`
missing, or present as a blank string. -/
def paramViolates : Json → Bool
  | .obj kvs =>
    match lookupKvs kvs "description" with
    | none => true
    | some (.str s) => pyStrip s == ""
    | some _ => false
  | _ => false

/-- The data-model shape (spec 3) for one parameter object: a mapping whose
`description`, when present, is a string, carrying a string `name` whenever
it violates the policy (the diagnostic interpolates it). -/
def paramWf : Json → Bool
  | .obj kvs =>
    (match lookupKvs kvs "description" with
     | none => true
     | some (.str _) => true
     | some _ => false) &&
    (!(paramViolates (.obj kvs)) ||
      (match lookupKvs kvs "name" with
       | some (.str _) => true
       | _ => false))
  | _ => false

/-- The diagnostic line a violating parameter produces, `none` for a
conforming one. -/
def paramDiag (path method : String) : Json → Option String
  | .obj kvs =>
    match lookupKvs kvs "name" with
    | some (.str name) =>
      match lookupKvs kvs "description" with
      | none =>
        some ("            No description found for endpoint `" ++ path ++
              "` method `" ++ method ++ "` and parameter `" ++ name ++ "`")
      | some (.str s) =>
        if pyStrip s == "" then
          some ("            Empty description found for endpoint `" ++ path ++
                "` method `" ++ method ++ "` and parameter `" ++ name ++ "`")
        else none
      | some _ => none
    | _ => none
  | _ => none

/-- A parameter object carrying a non-blank string description; the loop
body never touches its `name` field. -/
def cleanParam : Json → Bool
  | .obj kvs =>
    match lookupKvs kvs "description" with
    | some (.str s) => pyStrip s != ""
    | _ => false
  | _ => false

theorem lookupKvs_some_any {kvs : List (String × Json)} {k : String} {v : Json}
    (h : lookupKvs kvs k = some v) : (kvs.any fun kv => kv.1 == k) = true := by
  induction kvs with
  | nil => simp [lookupKvs] at h
  | cons hd tl ih =>
    obtain ⟨k', v'⟩ := hd
    by_cases hk : k' = k
    · simp [hk]
    · simp only [lookupKvs, if_neg hk] at h
      simp [hk, ih h]

theorem lookupKvs_none_any {kvs : List (String × Json)} {k : String}
    (h : lookupKvs kvs k = none) : (kvs.any fun kv => kv.1 == k) = false := by
  induction kvs with
  | nil => simp
  | cons hd tl ih =>
    obtain ⟨k', v'⟩ := hd
    by_cases hk : k' = k
    · simp [lookupKvs, hk] at h
    · simp only [lookupKvs, if_neg hk] at h
      simp [hk, ih h]

theorem pyContains_obj_some {kvs : List (String × Json)} {k : String} {v : Json}
    (h : lookupKvs kvs k = some v) : pyContains (Json.obj kvs) k = .ok true := by
  simp [pyContains, lookupKvs_some_any h]

theorem pyContains_obj_none {kvs : List (String × Json)} {k : String}
    (h : lookupKvs kvs k = none) : pyContains (Json.obj kvs) k = .ok false := by
  simp [pyContains, lookupKvs_none_any h]

theorem getItem_obj {kvs : List (String × Json)} {k : String} {v : Json}
    (h : lookupKvs kvs k = some v) : getItem (Json.obj kvs) k = .ok v := by
  simp [getItem, h]

theorem checkOneParameter_wf (path method : String) (p : Json)
    (hp : paramWf p = true) :
    checkOneParameter path method p =
      .ok ((if paramViolates p then 1 else 0), (paramDiag path method p).toList) := by
  cases p with
  | obj kvs =>
    rcases hdesc : lookupKvs kvs "description" with _ | dv
    · -- description missing: wf forces a string name
      have hviol : paramViolates (Json.obj kvs) = true := by
        simp [paramViolates, hdesc]
      rcases hname : lookupKvs kvs "name" with _ | nv
      · simp [paramWf, hdesc, hviol, hname] at hp
      · cases nv with
        | str name =>
          simp [checkOneParameter, pyContains_obj_none hdesc, getItem_obj hname,
                hviol, paramDiag, hname, hdesc]
        | _ => simp [paramWf, hdesc, hviol, hname] at hp
    · cases dv with
      | str s =>
        by_cases hb : pyStrip s = ""
        · -- blank description: violating, wf forces a string name
          have hviol : paramViolates (Json.obj kvs) = true := by
            simp [paramViolates, hdesc, hb]
          rcases hname : lookupKvs kvs "name" with _ | nv
          · simp [paramWf, hdesc, hviol, hname] at hp
          · cases nv with
            | str name =>
              simp [checkOneParameter, pyContains_obj_some hdesc, empty_attribute,
                    getItem_obj hdesc, getItem_obj hname, hb, hviol, paramDiag,
                    hname, hdesc]
            | _ => simp [paramWf, hdesc, hviol, hname] at hp
        · -- non-blank string description: conforming, name never read
          have hviol : paramViolates (Json.obj kvs) = false := by
            simp [paramViolates, hdesc, hb]
          have hdiag : paramDiag path method (Json.obj kvs) = none := by
            rcases hname : lookupKvs kvs "name" with _ | nv
            · simp [paramDiag, hname]
            · cases nv <;> simp [paramDiag, hname, hdesc, hb]
          simp [checkOneParameter, pyContains_obj_some hdesc, empty_attribute,
                getItem_obj hdesc, hb, hviol, hdiag]
      | _ => simp [paramWf, hdesc] at hp
  | null => simp [paramWf] at hp
  | bool b => simp [paramWf] at hp
  | num n => simp [paramWf] at hp
  | str s => simp [paramWf] at hp
  | arr xs => simp [paramWf] at hp

theorem paramDiag_isSome (path method : String) (p : Json)
    (hp : paramWf p = true) :
    (paramDiag path method p).isSome = paramViolates p := by
  cases p with
  | obj kvs =>
    rcases hdesc : lookupKvs kvs "description" with _ | dv
    · have hviol : paramViolates (Json.obj kvs) = true := by
        simp [paramViolates, hdesc]
      rcases hname : lookupKvs kvs "name" with _ | nv
      · simp [paramWf, hdesc, hviol, hname] at hp
      · cases nv with
        | str name => simp [paramDiag, hname, hdesc, hviol]
        | _ => simp [paramWf, hdesc, hviol, hname] at hp
    · cases dv with
      | str s =>
        by_cases hb : pyStrip s = ""
        · have hviol : paramViolates (Json.obj kvs) = true := by
            simp [paramViolates, hdesc, hb]
          rcases hname : lookupKvs kvs "name" with _ | nv
          · simp [paramWf, hdesc, hviol, hname] at hp
          · cases nv with
            | str name => simp [paramDiag, hname, hdesc, hb, hviol]
            | _ => simp [paramWf, hdesc, hviol, hname] at hp
        · have hviol : paramViolates (Json.obj kvs) = false := by
            simp [paramViolates, hdesc, hb]
          rcases hname : lookupKvs kvs "name" with _ | nv
          · simp [paramDiag, hname, hviol]
          · cases nv <;> simp [paramDiag, hname, hdesc, hb, hviol]
      | _ => simp [paramWf, hdesc] at hp
  | null => simp [paramWf] at hp
  | bool b => simp [paramWf] at hp
  | num n => simp [paramWf] at hp
  | str s => simp [paramWf] at hp
  | arr xs => simp [paramWf] at hp

theorem loopParams_wf (path method : String) (ps : List Json)
    (hwf : ∀ p ∈ ps, paramWf p = true) :
    loopParams path method ps =
      .ok ((ps.filter paramViolates).length, ps.filterMap (paramDiag path method)) := by
  induction ps with
  | nil => rfl
  | cons p l ih =>
    have hp := hwf p (by simp)
    have hl : ∀ x ∈ l, paramWf x = true := fun x hx => hwf x (by simp [hx])
    rw [loopParams, checkOneParameter_wf path method p hp, ih hl]
    rcases hd : paramDiag path method p with _ | msg <;>
      by_cases hv : paramViolates p <;>
        simp [List.filter_cons, List.filterMap_cons, hd, hv, Nat.one_add]

theorem filterMap_paramDiag_length (path method : String) (ps : List Json)
    (hwf : ∀ p ∈ ps, paramWf p = true) :
    (ps.filterMap (paramDiag path method)).length = (ps.filter paramViolates).length := by
  induction ps with
  | nil => rfl
  | cons p l ih =>
    have hp := paramDiag_isSome path method p (hwf p (by simp))
    have hl : ∀ x ∈ l, paramWf x = true := fun x hx => hwf x (by simp [hx])
    rcases hd : paramDiag path method p with _ | msg
    · rw [hd] at hp
      simp [List.filter_cons, List.filterMap_cons, hd, ← hp, ih hl]
    · rw [hd] at hp
      simp [List.filter_cons, List.filterMap_cons, hd, ← hp, ih hl]

theorem cleanParam_wf (q : Json) (hq : cleanParam q = true) :
    paramWf q = true ∧ paramViolates q = false := by
  cases q with
  | obj kvs =>
    rcases hdesc : lookupKvs kvs "description" with _ | dv
    · simp [cleanParam, hdesc] at hq
    · cases dv with
      | str s =>
        simp only [cleanParam, hdesc, bne_iff_ne, ne_eq] at hq
        constructor
        · simp [paramWf, paramViolates, hdesc, hq]
        · simp [paramViolates, hdesc, hq]
      | null => simp [cleanParam, hdesc] at hq
      | bool b => simp [cleanParam, hdesc] at hq
      | num n => simp [cleanParam, hdesc] at hq
      | arr xs => simp [cleanParam, hdesc] at hq
      | obj o => simp [cleanParam, hdesc] at hq
  | null => simp [cleanParam] at hq
  | bool b => simp [cleanParam] at hq
  | num n => simp [cleanParam] at hq
  | str s => simp [cleanParam] at hq
  | arr xs => simp [cleanParam] at hq

theorem checkOneParameter_clean (path method : String) (q : Json)
    (hq : cleanParam q = true) :
    checkOneParameter path method q = .ok (0, []) := by
  obtain ⟨hwf, hnv⟩ := cleanParam_wf q hq
  have hdiag : paramDiag path method q = none := by
    have := paramDiag_isSome path method q hwf
    rw [hnv] at this
    exact Option.not_isSome_iff_eq_none.mp (by simp [this])
  rw [checkOneParameter_wf path method q hwf, hnv, hdiag]
  rfl

theorem loopParams_clean_prefix (path method : String) (pre rest : List Json)
    (hpre : ∀ q ∈ pre, cleanParam q = true) :
    loopParams path method (pre ++ rest) = loopParams path method rest := by
  induction pre with
  | nil => rfl
  | cons q l ih =>
    have hq := hpre q (by simp)
    have hl : ∀ x ∈ l, cleanParam x = true := fun x hx => hpre x (by simp [hx])
    rw [List.cons_append, loopParams, checkOneParameter_clean path method q hq, ih hl]
    cases hres : loopParams path method rest with
    | error e => rfl
    | ok pr => cases pr with | mk n out => simp

theorem checkOneParameter_nameless_violating (path method : String)
    (pkvs : List (String × Json))
    (hname : lookupKvs pkvs "name" = none)
    (hviol : paramViolates (Json.obj pkvs) = true) :
    checkOneParameter path method (Json.obj pkvs) = .error (PyErr.keyError "name") := by
  rcases hdesc : lookupKvs pkvs "description" with _ | dv
  · simp [checkOneParameter, pyContains_obj_none hdesc, getItem, hname]
  · cases dv with
    | str s =>
      have hb : pyStrip s = "" := by
        simpa [paramViolates, hdesc] using hviol
      simp [checkOneParameter, pyContains_obj_some hdesc, empty_attribute,
            getItem, hdesc, hb, hname]
    | null => simp [paramViolates, hdesc] at hviol
    | bool b => simp [paramViolates, hdesc] at hviol
    | num n => simp [paramViolates, hdesc] at hviol
    | arr xs => simp [paramViolates, hdesc] at hviol
    | obj o => simp [paramViolates, hdesc] at hviol

theorem check_method_ok_total (path k : String) (kvs : List (String × Json))
    (v : Option Bool) (n : Nat) (out : List String)
    (h : check_method path k (Json.obj kvs) v = .ok (n, out)) :
    ∃ m, lookupKvs kvs k = some m ∧ n = spec_method_total path k m := by
  rcases hg : lookupKvs kvs k with _ | m
  · rw [check_method] at h
    simp [getItem, hg] at h
  · refine ⟨m, rfl, ?_⟩
    rw [check_method] at h
    simp only [getItem, hg] at h
    rcases h1 : check_description_for_method path k m with e1 | p1
    · simp [h1] at h
    · obtain ⟨n1, o1⟩ := p1
      rcases h2 : check_description_for_method_parameters path k m with e2 | p2
      · simp [h1, h2] at h
      · obtain ⟨n2, o2⟩ := p2
        rcases h3 : check_description_for_method_responses path k m with e3 | p3
        · simp [h1, h2, h3] at h
        · obtain ⟨n3, o3⟩ := p3
          simp only [h1, h2, h3, Except.ok.injEq, Prod.mk.injEq] at h
          rw [← h.1]
          simp [spec_method_total, okCount, h1, h2, h3]

theorem loopMethods_ok_total (path : String) (mkvs : List (String × Json))
    (v : Option Bool) (ks : List String) (n : Nat) (out : List String)
    (h : loopMethods path (Json.obj mkvs) v ks = .ok (n, out)) :
    n = (ks.map fun k =>
      match lookupKvs mkvs k with
      | some m => spec_method_total path k m
      | none => 0).sum := by
  induction ks generalizing n out with
  | nil =>
    rw [loopMethods] at h
    simp only [Except.ok.injEq, Prod.mk.injEq] at h
    simp [← h.1]
  | cons k rest ih =>
    rw [loopMethods] at h
    rcases hcm : check_method path k (Json.obj mkvs) v with e | p
    · simp [hcm] at h
    · obtain ⟨n1, o1⟩ := p
      rcases hrec : loopMethods path (Json.obj mkvs) v rest with e | q
      · simp [hcm, hrec] at h
      · obtain ⟨n', o'⟩ := q
        simp only [hcm, hrec, Except.ok.injEq, Prod.mk.injEq] at h
        obtain ⟨m, hm, htot⟩ := check_method_ok_total path k mkvs v n1 o1 hcm
        have hrest := ih n' o' hrec
        rw [← h.1, htot, hrest]
        simp [hm]

theorem check_path_ok_total (path : String) (methods : Json) (v : Option Bool)
    (n : Nat) (out : List String)
    (h : check_path path methods v = .ok (n, out)) :
    n = spec_methods_total path methods := by
  cases methods with
  | obj kvs =>
    rw [check_path] at h
    rcases hlm : loopMethods path (Json.obj kvs) v (kvs.map Prod.fst) with e | p
    · simp [hlm] at h
    · obtain ⟨n0, o0⟩ := p
      simp only [hlm, Except.ok.injEq, Prod.mk.injEq] at h
      rw [← h.1]
      simpa [spec_methods_total] using loopMethods_ok_total path kvs v _ n0 o0 hlm
  | str s =>
    rw [check_path] at h
    by_cases hs : s.isEmpty
    · simp only [hs, if_true, Except.ok.injEq, Prod.mk.injEq] at h
      simp [spec_methods_total, ← h.1]
    · simp [hs] at h
  | arr xs =>
    rw [check_path] at h
    by_cases hs : xs.isEmpty
    · simp only [hs, if_true, Except.ok.injEq, Prod.mk.injEq] at h
      simp [spec_methods_total, ← h.1]
    · simp [hs] at h
  | null => exact Except.noConfusion h
  | bool b => exact Except.noConfusion h
  | num i => exact Except.noConfusion h

theorem loopPaths_ok_total (pkvs : List (String × Json)) (v : Option Bool)
    (ks : List String) (n : Nat) (out : List String)
    (h : loopPaths (Json.obj pkvs) v ks = .ok (n, out)) :
    n = (ks.map fun k =>
      match lookupKvs pkvs k with
      | some methods => spec_methods_total k methods
      | none => 0).sum := by
  induction ks generalizing n out with
  | nil =>
    rw [loopPaths] at h
    simp only [Except.ok.injEq, Prod.mk.injEq] at h
    simp [← h.1]
  | cons k rest ih =>
    rw [loopPaths] at h
    rcases hg : lookupKvs pkvs k with _ | methods
    · simp [getItem, hg] at h
    · simp only [getItem, hg] at h
      rcases hcp : check_path k methods v with e | p
      · simp [hcp] at h
      · obtain ⟨n1, o1⟩ := p
        rcases hrec : loopPaths (Json.obj pkvs) v rest with e | q
        · simp [hcp, hrec] at h
        · obtain ⟨n', o'⟩ := q
          simp only [hcp, hrec, Except.ok.injEq, Prod.mk.injEq] at h
          have h1 := check_path_ok_total k methods v n1 o1 hcp
          have h2 := ih n' o' hrec
          rw [← h.1, h1, h2]
          simp [hg]

/-- Claim C1: for every document that parses successfully as JSON,
`check_openapi_json` returns the pair (passes, failures) where failures is
the sum of the info-node check result and the all-paths check result, and
passes is 1 exactly when that sum is zero and 0 otherwise. The hypotheses
record the two checks' results; the printed output is determined as well. -/
theorem c1_parse_success_counters (verbose : Option Bool) (directory : String)
    (doc : Json) (i p : Nat) (o1 o2 : List String)
    (h1 : check_info_node doc verbose = .ok (i, o1))
    (h2 : check_all_paths doc verbose = .ok (p, o2)) :
    check_openapi_json verbose directory (.ok doc) =
      .ok ((if i + p = 0 then 1 else 0, i + p),
        (if verbose.isSome then
          [openapi_filename directory ++ " has valid JSON format"] else []) ++ o1 ++ o2) := by
  rw [check_openapi_json]
  simp only [h1, h2]

/-- Witness for C1 at the document
`{"info": {"description": "ok"}, "paths": {}}`: one pass, zero failures. -/
theorem c1_witness :
    check_openapi_json none "./"
      (.ok (Json.obj [("info", Json.obj [("description", Json.str "ok")]),
                      ("paths", Json.obj [])])) = .ok ((1, 0), []) := by
  have h := c1_parse_success_counters none "./"
    (Json.obj [("info", Json.obj [("description", Json.str "ok")]),
               ("paths", Json.obj [])]) 0 0 [] [] rfl rfl
  simpa using h

/-- Claim C2: whenever the root mapping's `paths` value is a mapping and
`check_all_paths` returns at all, the returned count is the grand total
obtained by summing, over every path key and every method key of that path's
methods mapping, the failure counts of the three method-level validators —
every entry is included, so no early termination occurs. -/
theorem c2_all_paths_grand_total (root pathsKvs : List (String × Json))
    (v : Option Bool) (n : Nat) (out : List String)
    (hp : lookupKvs root "paths" = some (Json.obj pathsKvs))
    (h : check_all_paths (Json.obj root) v = .ok (n, out)) :
    n = spec_grand_total pathsKvs := by
  rw [check_all_paths] at h
  simp only [getItem, hp] at h
  rcases hlp : loopPaths (Json.obj pathsKvs) v (pathsKvs.map Prod.fst) with e | p
  · simp [hlp] at h
  · obtain ⟨n0, o0⟩ := p
    simp only [hlp, Except.ok.injEq, Prod.mk.injEq] at h
    rw [← h.1]
    simpa [spec_grand_total] using loopPaths_ok_total pathsKvs v _ n0 o0 hlp

/-- Witness for C2: a document with two paths and three operations, where
the failures of `/a get` (missing description) and `/b post` (blank
description) both count — the grand total is 2. -/
theorem c2_witness :
    (2 : Nat) = spec_grand_total
      [("/a", Json.obj [("get", Json.obj [])]),
       ("/b", Json.obj [("post", Json.obj [("description", Json.str " ")]),
                        ("put", Json.obj [("description", Json.str "ok")])])] := by
  exact c2_all_paths_grand_total
    [("paths", Json.obj
      [("/a", Json.obj [("get", Json.obj [])]),
       ("/b", Json.obj [("post", Json.obj [("description", Json.str " ")]),
                        ("put", Json.obj [("description", Json.str "ok")])])])]
    [("/a", Json.obj [("get", Json.obj [])]),
     ("/b", Json.obj [("post", Json.obj [("description", Json.str " ")]),
                      ("put", Json.obj [("description", Json.str "ok")])])]
    none 2
    ["            No description found for endpoint `/a` and method `get`",
     "            Empty description found for endpoint `/b` and method `post`"]
    rfl rfl

/-- Claim C3: for every input whose content is not valid JSON,
`check_openapi_json` records 0 passes and exactly 1 failure, prints the
per-file invalid-format message followed by the parser's error text, and
nothing else — no further checks run. -/
theorem c3_invalid_json (verbose : Option Bool) (directory : String) (e : String) :
    check_openapi_json verbose directory (.error e) =
      .ok ((0, 1), [openapi_filename directory ++ " has invalid JSON format", e]) := rfl

/-- Claim C4: on a document matching the data model's shape, the info-node
check returns 1 when the document is null, `info` is missing,
`info.description` is missing or `info.description` is blank after trimming,
and 0 otherwise — never more than one failure. -/
theorem c4_info_node_zero_or_one (obj : Json) (verbose : Option Bool)
    (hwf : infoWf obj = true) :
    Except.map Prod.fst (check_info_node obj verbose) =
      Except.ok (if info_violation obj then 1 else 0) := by
  cases obj with
  | null => rfl
  | obj kvs =>
    rcases hinfo : lookupKvs kvs "info" with _ | iv
    · simp [check_info_node, pyContains_obj_none hinfo, info_violation, hinfo,
            Except.map]
    · cases iv with
      | obj ikvs =>
        rcases hdesc : lookupKvs ikvs "description" with _ | dv
        · simp [check_info_node, pyContains_obj_some hinfo, getItem_obj hinfo,
                pyContains_obj_none hdesc, info_violation, hinfo, hdesc, Except.map]
        · cases dv with
          | str s =>
            by_cases hb : pyStrip s = ""
            · simp [check_info_node, pyContains_obj_some hinfo, getItem_obj hinfo,
                    pyContains_obj_some hdesc, empty_attribute, getItem_obj hdesc,
                    info_violation, hinfo, hdesc, hb, Except.map]
            · simp [check_info_node, pyContains_obj_some hinfo, getItem_obj hinfo,
                    pyContains_obj_some hdesc, empty_attribute, getItem_obj hdesc,
                    info_violation, hinfo, hdesc, hb, Except.map]
          | null => simp [infoWf, hinfo, hdesc] at hwf
          | bool b => simp [infoWf, hinfo, hdesc] at hwf
          | num i => simp [infoWf, hinfo, hdesc] at hwf
          | arr xs => simp [infoWf, hinfo, hdesc] at hwf
          | obj o => simp [infoWf, hinfo, hdesc] at hwf
      | null => simp [infoWf, hinfo] at hwf
      | bool b => simp [infoWf, hinfo] at hwf
      | num i => simp [infoWf, hinfo] at hwf
      | str s => simp [infoWf, hinfo] at hwf
      | arr xs => simp [infoWf, hinfo] at hwf
  | bool b => simp [infoWf] at hwf
  | num i => simp [infoWf] at hwf
  | str s => simp [infoWf] at hwf
  | arr xs => simp [infoWf] at hwf

/-- Witness for C4 at `{"info": {"description": "   "}}`: a blank
description yields exactly one failure. -/
theorem c4_witness :
    Except.map Prod.fst
      (check_info_node (Json.obj [("info", Json.obj [("description", Json.str "   ")])]) none) =
      Except.ok 1 := by
  have h := c4_info_node_zero_or_one
    (Json.obj [("info", Json.obj [("description", Json.str "   ")])]) none rfl
  exact h.trans (by rfl)

/-- Claim C5: for an operation whose `parameters` entry is a sequence of
shape-conforming parameter objects, the parameters check returns exactly the
number of parameters whose description is missing or blank — parameters with
valid descriptions contribute nothing — iterating in sequence order, with one
diagnostic line per violation. -/
theorem c5_parameters_exact_count (path method : String)
    (mkvs : List (String × Json)) (ps : List Json)
    (hm : lookupKvs mkvs "parameters" = some (Json.arr ps))
    (hwf : ∀ p ∈ ps, paramWf p = true) :
    check_description_for_method_parameters path method (Json.obj mkvs) =
      .ok ((ps.filter paramViolates).length, ps.filterMap (paramDiag path method)) ∧
    (ps.filterMap (paramDiag path method)).length = (ps.filter paramViolates).length := by
  constructor
  · rw [check_description_for_method_parameters, pyContains_obj_some hm]
    simp [getItem, hm, loopParams_wf path method ps hwf]
  · exact filterMap_paramDiag_length path method ps hwf

/-- Witness for C5: three parameters — `id` without description, `x` with a
valid one, `y` with a blank one — produce exactly 2 failures and 2 lines. -/
theorem c5_witness :
    check_description_for_method_parameters "/r" "get"
      (Json.obj [("parameters", Json.arr
        [Json.obj [("name", Json.str "id")],
         Json.obj [("name", Json.str "x"), ("description", Json.str "ok")],
         Json.obj [("name", Json.str "y"), ("description", Json.str "  ")]])]) =
      .ok (2,
        ["            No description found for endpoint `/r` method `get` and parameter `id`",
         "            Empty description found for endpoint `/r` method `get` and parameter `y`"]) := by
  have h := (c5_parameters_exact_count "/r" "get"
    [("parameters", Json.arr
      [Json.obj [("name", Json.str "id")],
       Json.obj [("name", Json.str "x"), ("description", Json.str "ok")],
       Json.obj [("name", Json.str "y"), ("description", Json.str "  ")]])]
    [Json.obj [("name", Json.str "id")],
     Json.obj [("name", Json.str "x"), ("description", Json.str "ok")],
     Json.obj [("name", Json.str "y"), ("description", Json.str "  ")]]
    rfl (by decide)).1
  exact h.trans (by rfl)

/-- Claim C6: `display_report` prints exactly one classification banner —
WARN iff passes = 0 and failures = 0, OK iff passes ≥ 1 and failures = 0,
FAIL iff failures > 0 — always followed by the two literal summary lines. -/
theorem c6_display_report_classification (p f : Nat) (nc : Option Bool)
    (cc : String → String) :
    display_report p f nc cc =
      [(if f = 0 then if p = 0 then warnBanner nc cc else okBanner nc cc
        else failBanner nc cc),
       toString p ++ " passes", toString f ++ " failures"] ∧
    (p = 0 ∧ f = 0 → display_report p f nc cc =
      [warnBanner nc cc, toString p ++ " passes", toString f ++ " failures"]) ∧
    (1 ≤ p ∧ f = 0 → display_report p f nc cc =
      [okBanner nc cc, toString p ++ " passes", toString f ++ " failures"]) ∧
    (0 < f → display_report p f nc cc =
      [failBanner nc cc, toString p ++ " passes", toString f ++ " failures"]) := by
  refine ⟨rfl, ?_, ?_, ?_⟩
  · rintro ⟨hp, hf⟩
    simp [display_report, hp, hf]
  · rintro ⟨hp, hf⟩
    have hp0 : p ≠ 0 := by omega
    simp [display_report, hf, hp0]
  · intro hf
    have hf0 : f ≠ 0 := by omega
    simp [display_report, hf0]

/-- Witness for C6 at (0, 0): the WARN banner and both summary lines. -/
theorem c6_witness :
    display_report 0 0 (some true) (fun _ => "") =
      [warnBanner (some true) (fun _ => ""),
       toString (0 : Nat) ++ " passes", toString (0 : Nat) ++ " failures"] :=
  (c6_display_report_classification 0 0 (some true) (fun _ => "")).2.1 ⟨rfl, rfl⟩

/-- Counterexample to claim C7: on the JSON document `null` the run does not
complete — `check_all_paths` subscripts `None` and the resulting type error
escapes `check_openapi_json`, so no (passes, failures) pair is returned. -/
theorem c7_counterexample :
    check_openapi_json none "./" (.ok Json.null) = .error PyErr.typeError := rfl

/-- Claim C7 amended: on a document parsing to `null` the info-node check
does report one failure ("empty object"), but `check_all_paths` then raises
an uncaught TypeError subscripting the null document, so `check_openapi_json`
propagates the error instead of returning a pair. -/
theorem c7_null_document_crashes (verbose : Option Bool) (directory : String) :
    check_info_node Json.null verbose =
      .ok (1, (if verbose.isSome then ["    checking info node"] else []) ++
              ["Empty object has been deserialized"]) ∧
    check_all_paths Json.null verbose = .error PyErr.typeError ∧
    check_openapi_json verbose directory (.ok Json.null) = .error PyErr.typeError :=
  ⟨rfl, rfl, rfl⟩

/-- Claim C8: after any run of parameters with valid descriptions, a
violating parameter (missing or blank description) that lacks a `name` key
makes the parameters check raise `KeyError "name"` while formatting the
diagnostic; the same nameless parameter with a non-blank string description
is never asked for its name, so no error occurs. -/
theorem c8_nameless_parameter (path method : String) (pre : List Json)
    (pkvs : List (String × Json))
    (hpre : ∀ q ∈ pre, cleanParam q = true)
    (hname : lookupKvs pkvs "name" = none) :
    (paramViolates (Json.obj pkvs) = true →
      check_description_for_method_parameters path method
        (Json.obj [("parameters", Json.arr (pre ++ [Json.obj pkvs]))]) =
        .error (PyErr.keyError "name")) ∧
    (∀ s, lookupKvs pkvs "description" = some (Json.str s) → pyStrip s ≠ "" →
      check_description_for_method_parameters path method
        (Json.obj [("parameters", Json.arr (pre ++ [Json.obj pkvs]))]) =
        .ok (0, [])) := by
  have hwrap : ∀ ps : List Json,
      check_description_for_method_parameters path method
        (Json.obj [("parameters", Json.arr ps)]) = loopParams path method ps := by
    intro ps
    rw [check_description_for_method_parameters,
        @pyContains_obj_some [("parameters", Json.arr ps)] "parameters"
          (Json.arr ps) rfl]
    simp [getItem, lookupKvs]
  constructor
  · intro hviol
    rw [hwrap, loopParams_clean_prefix path method pre [Json.obj pkvs] hpre,
        loopParams, checkOneParameter_nameless_violating path method pkvs hname hviol]
  · intro s hdesc hnb
    have hclean : cleanParam (Json.obj pkvs) = true := by
      simp [cleanParam, hdesc, hnb]
    rw [hwrap, loopParams_clean_prefix path method pre [Json.obj pkvs] hpre,
        loopParams, checkOneParameter_clean path method _ hclean]
    rfl

/-- Witness for C8: the empty parameter object (no description, no name)
crashes with `KeyError "name"`. -/
theorem c8_witness :
    check_description_for_method_parameters "/a" "get"
      (Json.obj [("parameters", Json.arr [Json.obj []])]) =
      .error (PyErr.keyError "name") := by
  have h := c8_nameless_parameter "/a" "get" [] [] (by simp) rfl
  exact h.1 rfl

/-- Claim C9: when the root mapping has no `paths` key (and the info check
completes), `check_all_paths` raises `KeyError "paths"`, and
`check_openapi_json` does not catch it — the error escapes instead of a
(passes, failures) pair being returned. -/
theorem c9_missing_paths_uncaught (root : List (String × Json))
    (verbose : Option Bool) (directory : String) (i : Nat) (o : List String)
    (hpaths : lookupKvs root "paths" = none)
    (hinfo : check_info_node (Json.obj root) verbose = .ok (i, o)) :
    check_all_paths (Json.obj root) verbose = .error (PyErr.keyError "paths") ∧
    check_openapi_json verbose directory (.ok (Json.obj root)) =
      .error (PyErr.keyError "paths") := by
  have hall : check_all_paths (Json.obj root) verbose =
      .error (PyErr.keyError "paths") := by
    rw [check_all_paths]
    simp [getItem, hpaths]
  refine ⟨hall, ?_⟩
  rw [check_openapi_json]
  simp only [hinfo, hall]

/-- Witness for C9 at `{"info": {"description": "x"}}`: the `KeyError`
escapes `check_openapi_json`. -/
theorem c9_witness :
    check_openapi_json none "./"
      (.ok (Json.obj [("info", Json.obj [("description", Json.str "x")])])) =
      .error (PyErr.keyError "paths") :=
  (c9_missing_paths_uncaught [("info", Json.obj [("description", Json.str "x")])]
    none "./" 0 [] rfl rfl).2

/-- Counterexample to claim C10: for the directory argument "mydir" the code
opens "mydiropenapi.json", which is not the path "mydir/openapi.json". -/
theorem c10_counterexample :
    openapi_filename "mydir" ≠ "mydir" ++ "/" ++ "openapi.json" := by decide

/-- Claim C10 amended: the target file name is the plain string
concatenation `directory ++ "openapi.json"` with no separator inserted; it
denotes `openapi.json` inside the directory only when the argument already
ends with a path separator, as the default `./` does. -/
theorem c10_filename_plain_concat (d : String) :
    openapi_filename d = d ++ "openapi.json" ∧
    openapi_filename (d ++ "/") = d ++ "/" ++ "openapi.json" ∧
    openapi_filename "./" = "./openapi.json" :=
  ⟨rfl, rfl, by decide⟩
